import Mathlib

set_option maxRecDepth 8192

/-!
Verification of the agent reasoning loop of `src/agent/agent_orchestrator.py`
(SJSU Virtual Assistant).  The Python orchestrator is shallowly embedded:
strings are Lean `String`s, the LLM client and the two retrieval tools are
oracles returning `Except String String` (an exception or a text result), and
the `re`-module patterns used by the source are replayed by a small
backtracking matcher (`matchRE`) whose alternation order, greediness and
laziness follow CPython `re` semantics for the specific patterns involved.
-/

namespace SJSUAgent

/-! ## Python string primitives -/

/-- `str.lower()` restricted to ASCII, which is all the source ever feeds it. -/
def pyLower (s : String) : String := String.mk (s.data.map Char.toLower)

/-- Python `\s` / `str.strip()` whitespace: space, tab, LF, CR, VT, FF. -/
def isPySpace (c : Char) : Bool :=
  c == ' ' || c == '\t' || c == '\n' || c == '\r' || c.toNat == 11 || c.toNat == 12

/-- Python `\w` for ASCII text: alphanumeric or underscore. -/
def isWordChar (c : Char) : Bool := c.isAlphanum || c == '_'

/-- Substring test on char lists (Python `needle in haystack`). -/
def listContainsSub (n : List Char) : List Char → Bool
  | [] => n.isEmpty
  | c :: rest => n.isPrefixOf (c :: rest) || listContainsSub n rest

/-- Python `needle in haystack` for strings. -/
def containsSub (needle hay : String) : Bool := listContainsSub needle.data hay.data

def dropWhileEnd (p : Char → Bool) (l : List Char) : List Char :=
  (l.reverse.dropWhile p).reverse

/-- Python `s.strip(chars)`: remove any of `cs` from both ends. -/
def pyStripChars (cs : List Char) (s : String) : String :=
  String.mk (dropWhileEnd (fun c => cs.contains c) (s.data.dropWhile (fun c => cs.contains c)))

/-- Python `s.strip()` (whitespace). -/
def pyStrip (s : String) : String :=
  String.mk (dropWhileEnd isPySpace (s.data.dropWhile isPySpace))

def wordsAux : List Char → List Char → List String
  | [], acc => if acc.isEmpty then [] else [String.mk acc.reverse]
  | c :: rest, acc =>
      if isPySpace c then
        if acc.isEmpty then wordsAux rest [] else String.mk acc.reverse :: wordsAux rest []
      else wordsAux rest (c :: acc)

/-- Python `s.split()`: split on whitespace runs, dropping empty pieces. -/
def pySplitWs (s : String) : List String := wordsAux s.data []

/-- Python slice `s[:n]` (by characters). -/
def strTake (s : String) (n : Nat) : String := String.mk (s.data.take n)

/-- Fuel-indexed scan for `str.replace`; each step consumes at least one
character, so `fuel = l.length` never runs out.  (Structural recursion on
the fuel keeps the function definitionally reducible.) -/
def replaceCoreAux (p0 : Char) (ps rep : List Char) : Nat → List Char → List Char
  | 0, l => l
  | _, [] => []
  | fuel + 1, c :: rest =>
      if (p0 :: ps).isPrefixOf (c :: rest) then
        rep ++ replaceCoreAux p0 ps rep fuel (rest.drop ps.length)
      else c :: replaceCoreAux p0 ps rep fuel rest

def replaceCore (p0 : Char) (ps rep l : List Char) : List Char :=
  replaceCoreAux p0 ps rep l.length l

/-- Python `s.replace(pat, rep)`: replace every non-overlapping occurrence,
left to right.  The source never calls it with an empty pattern. -/
def pyReplace (s pat rep : String) : String :=
  match pat.data with
  | [] => s
  | p :: ps => String.mk (replaceCore p ps rep.data s.data)

/-- Python `s.capitalize()`: first char upper, the rest lower. -/
def pyCapitalize (s : String) : String :=
  match s.data with
  | [] => ""
  | c :: rest => String.mk (c.toUpper :: rest.map Char.toLower)

/-- Python truthiness of an optional string (`None` and `""` are falsy). -/
def optTruthy (o : Option String) : Bool :=
  match o with
  | some s => decide (s ≠ "")
  | none => false

/-- Python `x or d` for an optional string `x` and non-`None` default `d`. -/
def pyOr (o : Option String) (d : String) : String :=
  match o with
  | some s => if s = "" then d else s
  | none => d

/-! ## A small backtracking matcher for the regex patterns used by the source

Quantifiers in the source patterns only ever apply to single-character
classes, so repetition is a primitive over a character class with a
min/optional-max count and a greediness flag.  `alt` tries the left branch
first; continuation-passing gives the same backtracking order as CPython. -/

inductive RE : Type where
  | eps : RE
  | lit : List Char → Bool → RE
  | cls : (Char → Bool) → RE
  | rep : (Char → Bool) → Nat → Option Nat → Bool → RE
  | seq : RE → RE → RE
  | alt : RE → RE → RE
  | grp : Nat → RE → RE
  | eos : RE

def seqList (l : List RE) : RE := l.foldr RE.seq RE.eps

/-- Match a literal (case-insensitively when `ci`), returning the rest. -/
def litAt (ci : Bool) : List Char → List Char → Option (List Char)
  | [], cs => some cs
  | _ :: _, [] => none
  | p :: ps, c :: cs =>
      if (if ci then p.toLower == c.toLower else p == c) then litAt ci ps cs else none

/-- Candidate repetition counts in the order the engine must try them. -/
def repCounts (mn : Nat) (mx : Option Nat) (greedy : Bool) (avail : Nat) : List Nat :=
  let hi := match mx with | some m => min m avail | none => avail
  if hi < mn then []
  else
    let base := List.range' mn (hi - mn + 1)
    if greedy then base.reverse else base

def matchRE {γ : Type} :
    RE → List Char → (List Char → List (Nat × List Char) → Option γ) →
    List (Nat × List Char) → Option γ
  | RE.eps, cs, k, caps => k cs caps
  | RE.eos, cs, k, caps => if cs.isEmpty then k cs caps else none
  | RE.lit ps ci, cs, k, caps =>
      match litAt ci ps cs with
      | some rest => k rest caps
      | none => none
  | RE.cls p, cs, k, caps =>
      match cs with
      | [] => none
      | c :: rest => if p c then k rest caps else none
  | RE.rep p mn mx g, cs, k, caps =>
      (repCounts mn mx g ((cs.takeWhile p).length)).findSome? (fun n => k (cs.drop n) caps)
  | RE.seq a b, cs, k, caps => matchRE a cs (fun cs2 caps2 => matchRE b cs2 k caps2) caps
  | RE.alt a b, cs, k, caps =>
      match matchRE a cs k caps with
      | some r => some r
      | none => matchRE b cs k caps
  | RE.grp i a, cs, k, caps =>
      matchRE a cs (fun cs2 caps2 => k cs2 ((i, cs.take (cs.length - cs2.length)) :: caps2)) caps

/-- Try to match `r` at the start of `cs`; on success return the number of
consumed characters and the captured groups. -/
def reFindAt (r : RE) (cs : List Char) : Option (Nat × List (Nat × List Char)) :=
  matchRE r cs (fun rest caps => some (cs.length - rest.length, caps)) []

/-- `re.search`: try each start position left to right. -/
def reSearchCaps (r : RE) : List Char → Option (List (Nat × List Char))
  | [] => (reFindAt r []).map Prod.snd
  | c :: rest =>
      match reFindAt r (c :: rest) with
      | some pr => some pr.2
      | none => reSearchCaps r rest

def capGet (caps : List (Nat × List Char)) (i : Nat) : Option (List Char) :=
  (caps.find? (fun pc => pc.1 == i)).map Prod.snd

/-- `re.search(...).group(1)`. -/
def search1 (r : RE) (s : String) : Option String :=
  (reSearchCaps r s.data).map (fun caps => String.mk ((capGet caps 1).getD []))

def capStr (caps : List (Nat × List Char)) (i : Nat) : String :=
  String.mk ((capGet caps i).getD [])

/-- Fuel-indexed scan for `re.sub`; every step consumes at least one
character (no pattern the source substitutes matches the empty string), so
`fuel = l.length` never runs out. -/
def reSubAllAux (r : RE) (rep : List Char) : Nat → List Char → List Char
  | 0, l => l
  | _, [] => []
  | fuel + 1, c :: rest =>
      match reFindAt r (c :: rest) with
      | some pr =>
          if pr.1 = 0 then c :: reSubAllAux r rep fuel rest
          else rep ++ reSubAllAux r rep fuel ((c :: rest).drop pr.1)
      | none => c :: reSubAllAux r rep fuel rest

/-- `re.sub(r, rep, ·)`: replace non-overlapping matches left to right. -/
def reSubAll (r : RE) (rep l : List Char) : List Char := reSubAllAux r rep l.length l

/-- Fuel-indexed scan for `re.finditer`. -/
def reFindIterAux (r : RE) : Nat → List Char → List (List (Nat × List Char))
  | 0, _ => []
  | _, [] => []
  | fuel + 1, c :: rest =>
      match reFindAt r (c :: rest) with
      | some pr =>
          if pr.1 = 0 then reFindIterAux r fuel rest
          else pr.2 :: reFindIterAux r fuel ((c :: rest).drop pr.1)
      | none => reFindIterAux r fuel rest

/-- `re.finditer`: capture lists of the non-overlapping matches, left to right. -/
def reFindIter (r : RE) (l : List Char) : List (List (Nat × List Char)) :=
  reFindIterAux r l.length l

/-! ## Character classes appearing in the source patterns -/

def anyChar : Char → Bool := fun _ => true
def notNL : Char → Bool := fun c => !(c == '\n')
def isQuoteChar : Char → Bool := fun c => c.toNat == 34 || c.toNat == 39
def isUpperAZ : Char → Bool := fun c => 65 ≤ c.toNat && c.toNat ≤ 90
def digitOrComma : Char → Bool := fun c => c.isDigit || c == ','
def digitOrDot : Char → Bool := fun c => c.isDigit || c == '.'
def notColon : Char → Bool := fun c => !(c == ':')
def notDot : Char → Bool := fun c => !(c == '.')
def notRBracket : Char → Bool := fun c => !(c == ']')

/-! ## The `_parse_response` patterns (IGNORECASE, and DOTALL where noted) -/

/-- `r'Action:\s*(\w+)'` (IGNORECASE). -/
def reActionName : RE :=
  seqList [RE.lit "Action:".data true, RE.rep isPySpace 0 none true,
    RE.grp 1 (RE.rep isWordChar 1 none true)]

def labelAfterNL : RE :=
  RE.alt (RE.lit "Observation".data true)
    (RE.alt (RE.lit "Thought".data true)
      (RE.alt (RE.lit "Final Answer".data true) (RE.lit "Action".data true)))

/-- `r'Action Input:\s*["\x27]?(.+?)["\x27]?\s*(?:\n\s*(?:Observation|Thought|Final Answer|Action)|\Z)'`
(IGNORECASE, DOTALL). -/
def reActionInput : RE :=
  seqList [RE.lit "Action Input:".data true, RE.rep isPySpace 0 none true,
    RE.rep isQuoteChar 0 (some 1) true,
    RE.grp 1 (RE.rep anyChar 1 none false),
    RE.rep isQuoteChar 0 (some 1) true,
    RE.rep isPySpace 0 none true,
    RE.alt (seqList [RE.lit "\n".data true, RE.rep isPySpace 0 none true, labelAfterNL]) RE.eos]

/-- `r'Final Answer:\s*(.+)'` (IGNORECASE, DOTALL). -/
def reFinalAnswer : RE :=
  seqList [RE.lit "Final Answer:".data true, RE.rep isPySpace 0 none true,
    RE.grp 1 (RE.rep anyChar 1 none true)]

/-- `r'\s*Observation\s*:.*$'` (IGNORECASE, DOTALL); with the greedy `.*`
the `$` anchor behaves as end-of-string here. -/
def reObsTail : RE :=
  seqList [RE.rep isPySpace 0 none true, RE.lit "Observation".data true,
    RE.rep isPySpace 0 none true, RE.lit ":".data true,
    RE.rep anyChar 0 none true, RE.eos]

/-- `r'\s*Thought\s*:.*$'` (IGNORECASE, DOTALL). -/
def reThoughtTail : RE :=
  seqList [RE.rep isPySpace 0 none true, RE.lit "Thought".data true,
    RE.rep isPySpace 0 none true, RE.lit ":".data true,
    RE.rep anyChar 0 none true, RE.eos]

/-! ## `AgentOrchestrator._parse_response` -/

def searchActionName (s : String) : Option String := (search1 reActionName s).map pyStrip

def quoteChars : List Char := ['\x22', '\x27']

/-- Lines 386-394 of the source: strip, drop trailing `Observation:` /
`Thought:` fragments, strip surrounding quotes, truncate to 200 chars. -/
def cleanupActionInput (raw : String) : String :=
  let ai := pyStrip raw
  let ai := String.mk (reSubAll reObsTail [] ai.data)
  let ai := String.mk (reSubAll reThoughtTail [] ai.data)
  let ai := pyStripChars quoteChars ai
  if ai.length > 200 then strTake ai 200 else ai

def actionInputOf (s : String) : Option String := (search1 reActionInput s).map cleanupActionInput

def searchFinalAnswer (s : String) : Option String := (search1 reFinalAnswer s).map pyStrip

/-- `AgentOrchestrator._parse_response`: returns `(action, action_input,
observation)` where the third slot carries a parsed final answer. -/
def parseResponse (response : String) :
    Option String × Option String × Option String :=
  let action := searchActionName response
  let actionInput := actionInputOf response
  if optTruthy action = true ∧ optTruthy actionInput = true then (action, actionInput, none)
  else
    let faBranch : Option (Option String × Option String × Option String) :=
      if containsSub "Final Answer:" response = true ∨
         containsSub "final answer:" (pyLower response) = true then
        match searchFinalAnswer response with
        | some fa => some (some "Final Answer", none, some fa)
        | none => none
      else none
    match faBranch with
    | some r => r
    | none =>
        if optTruthy action = true ∧ optTruthy actionInput = false then
          (action, some "SJSU information", none)
        else (action, actionInput, none)

/-! ## Data model -/

/-- One entry of `conversation_history` (`{'role': ..., 'content': ...}`). -/
structure Msg where
  role : String
  content : String
deriving DecidableEq

/-- One entry of `reasoning_steps`.  A normal step has `error = none`; the
error step appended on a model-call exception carries only `iteration` and
`error` (its other keys are absent, modelled as `none`). -/
structure Step where
  iteration : Nat
  thought : Option String
  action : Option String
  action_input : Option String
  observation : Option String
  error : Option String
deriving DecidableEq

/-- The external collaborators: the LLM client and the two tools.  An
`Except.error` models a raised exception. -/
structure Env where
  generate : String → String → List Msg → Except String String
  webSearch : String → Except String String
  dbQuery : String → Except String String
  modelName : String

/-- The dictionary returned by `run` (metadata keys inlined). -/
structure RunResult where
  query : String
  response : String
  reasoning_steps : List Step
  iterations : Nat
  model : String
  max_iterations : Nat
  completed : Bool
deriving DecidableEq

/-! ## Relevance fallback evaluator (lines 119-223 of the source) -/

/-- The fixed stop-word set of the keyword-overlap check. -/
def stopWords : List String :=
  ["what", "where", "when", "how", "who", "which", "is", "are", "was", "were",
   "the", "a", "an", "to", "for", "of", "in", "on", "at", "by", "with",
   "do", "does", "did", "can", "could", "would", "should", "will",
   "i", "me", "my", "need", "want", "get", "find", "about", "tell",
   "sjsu", "san", "jose", "state", "university", "enroll", "apply",
   "requirements", "requirement", "program", "course", "class"]

/-- The characters stripped by `word.strip(\x27?.,!\x27)`. -/
def sigStripChars : List Char := ['?', '.', ',', '!']

/-- Significant query terms: lowercased words with raw length > 2 whose
punctuation-stripped form is not a stop word; a set in the source, here the
first-occurrence deduplication (only membership and cardinality are used). -/
def significantWords (query : String) : List String :=
  (((pySplitWs (pyLower query)).filter
      (fun w => w.length > 2 && !(stopWords.contains (pyStripChars sigStripChars w)))).map
    (fun w => pyStripChars sigStripChars w)).dedup

/-- Terms drawn from the last two conversation turns (length checked after
punctuation stripping, unlike the query path). -/
def convTerms (conv : List Msg) : List String :=
  ((((conv.drop (conv.length - 2)).map (fun m => pyLower m.content)).flatMap
      (fun ml => (pySplitWs ml).map (fun w => pyStripChars sigStripChars w))).filter
    (fun w => w.length > 3 && !(stopWords.contains w))).dedup

/-- The AUTO-FALLBACK trigger after a `database_query` observation.
`matches < len * 0.5` is exactly `2 * matches < len` (0.5 is an exact
double); the conversation check compares against the IEEE double `0.3`,
rendered here as the rational `3/10` — the two differ only when `10 * m`
sits at the rounding boundary of `3 * n`, which no theorem below touches. -/
def shouldFallbackDb (query observation : String) (conv : List Msg) : Bool :=
  if containsSub "No information found" observation then true
  else
    let obsLower := pyLower observation
    let queryWords := significantWords query
    let mtc := (queryWords.filter (fun w => containsSub w obsLower)).length
    if !queryWords.isEmpty && 2 * mtc < queryWords.length then true
    else if (pySplitWs query).length ≤ 5 && !conv.isEmpty then
      let cws := convTerms conv
      let cm := (cws.filter (fun w => containsSub w obsLower)).length
      !cws.isEmpty && 10 * cm < 3 * cws.length
    else false

def locationWords : List String :=
  ["where", "location", "building", "address", "find", "directions", "located"]

def fillerWords : List String := ["the", "is", "are", "sjsu", "?", "what"]

/-- The keyword scan over recent turns used when the stripped subject is too
short (lines 190-208): first hit wins, checked per message in source order. -/
def scanSubject : List String → Option String
  | [] => none
  | ml :: rest =>
      if containsSub "financial aid" ml then some "financial aid"
      else if containsSub "housing" ml then some "housing"
      else if containsSub "parking" ml then some "parking"
      else if containsSub "registrar" ml then some "registrar"
      else if containsSub "bookstore" ml then some "bookstore"
      else scanSubject rest

/-- The subject isolated for a location-flavoured query (lines 184-208):
strip location and filler vocabulary, collapse whitespace, and when the
remainder is too short recover the subject from recent turns. -/
def buildWebQuerySubject (query : String) (conv : List Msg) : String :=
  let subject := (locationWords ++ fillerWords).foldl (fun s w => pyReplace s w " ") (pyLower query)
  let subject := pyStrip (String.intercalate " " (pySplitWs subject))
  if subject.length < 3 && !conv.isEmpty then
    match scanSubject ((conv.drop (conv.length - 4)).reverse.map (fun m => pyLower m.content)) with
    | some s => s
    | none => subject
  else subject

/-- Web-search query reformulation on fallback (lines 176-212). -/
def buildWebQuery (query : String) (conv : List Msg) : String :=
  if locationWords.any (fun w => containsSub w (pyLower query)) then
    "SJSU " ++ buildWebQuerySubject query conv ++ " office location address building"
  else
    "SJSU " ++ query

/-- The degraded observation when the fallback web search itself raises. -/
def staticFallbackMsg : String :=
  "I couldn\x27t find specific information about this. Please check sjsu.edu or contact the university directly."

/-! ## Tool dispatch and per-step execution (lines 105-228) -/

/-- `action in self.tools`. -/
def isKnownTool (a : String) : Bool := a == "web_search" || a == "database_query"

/-- `self.tools[action].execute(action_input)`. -/
def toolExec (env : Env) (a input : String) : Except String String :=
  if a = "web_search" then env.webSearch input else env.dbQuery input

/-- Execute the parsed (post-guard) action of a step and apply the
auto-fallback, mutating the step in place as the source does. -/
def executeAction (env : Env) (query : String) (conv : List Msg) (st : Step) : Step :=
  match st.action with
  | none => st
  | some a =>
      if isKnownTool a then
        match toolExec env a (st.action_input.getD "") with
        | Except.error e => { st with observation := some ("Error executing " ++ a ++ ": " ++ e) }
        | Except.ok obs =>
            let st1 := { st with observation := some obs }
            if a = "database_query" then
              if shouldFallbackDb query obs conv then
                let wq := buildWebQuery query conv
                match env.webSearch wq with
                | Except.ok wobs =>
                    { st1 with action := some "web_search", action_input := some wq,
                               observation := some wobs }
                | Except.error _ => { st1 with observation := some staticFallbackMsg }
              else st1
            else st1
      else st

/-! ## Answer formatter (`_format_observation_as_answer`, lines 425-539) -/

/-- `r'Summary:\s*(.+?)(?:\n\s*Result \d+:|\Z)'` (DOTALL). -/
def reSummary : RE :=
  seqList [RE.lit "Summary:".data false, RE.rep isPySpace 0 none true,
    RE.grp 1 (RE.rep anyChar 1 none false),
    RE.alt (seqList [RE.lit "\n".data false, RE.rep isPySpace 0 none true,
      RE.lit "Result ".data false, RE.rep Char.isDigit 1 none true, RE.lit ":".data false]) RE.eos]

/-- `r'URL:\s*(https?://[^\n]+)'`. -/
def reURL : RE :=
  seqList [RE.lit "URL:".data false, RE.rep isPySpace 0 none true,
    RE.grp 1 (seqList [RE.lit "http".data false, RE.rep (fun c => c == 's') 0 (some 1) true,
      RE.lit "://".data false, RE.rep notNL 1 none true])]

/-- `r'Content:\s*(.+?)(?:\n\s*Result \d+:|\Z)'` (DOTALL). -/
def reContent : RE :=
  seqList [RE.lit "Content:".data false, RE.rep isPySpace 0 none true,
    RE.grp 1 (RE.rep anyChar 1 none false),
    RE.alt (seqList [RE.lit "\n".data false, RE.rep isPySpace 0 none true,
      RE.lit "Result ".data false, RE.rep Char.isDigit 1 none true, RE.lit ":".data false]) RE.eos]

/-- `r'A:\s*(.+?)(?:\n\nResult|\Z)'` (DOTALL). -/
def reQA : RE :=
  seqList [RE.lit "A:".data false, RE.rep isPySpace 0 none true,
    RE.grp 1 (RE.rep anyChar 1 none false),
    RE.alt (RE.lit "\n\nResult".data false) RE.eos]

/-- `r'([A-Z]{2,4}\s*\d{3})\s*-\s*([^:]+):\s*Prerequisites:\s*([^.]+\.?)'`. -/
def reCourse : RE :=
  seqList [RE.grp 1 (seqList [RE.rep isUpperAZ 2 (some 4) true,
      RE.rep isPySpace 0 none true, RE.rep Char.isDigit 3 (some 3) true]),
    RE.rep isPySpace 0 none true, RE.lit "-".data false, RE.rep isPySpace 0 none true,
    RE.grp 2 (RE.rep notColon 1 none true), RE.lit ":".data false,
    RE.rep isPySpace 0 none true, RE.lit "Prerequisites:".data false,
    RE.rep isPySpace 0 none true,
    RE.grp 3 (seqList [RE.rep notDot 1 none true, RE.rep (fun c => c == '.') 0 (some 1) true])]

/-- `r'Scholarship:\s*([^\n]+)\nAmount:\s*\$?([\d,]+)'`. -/
def reScholarIter : RE :=
  seqList [RE.lit "Scholarship:".data false, RE.rep isPySpace 0 none true,
    RE.grp 1 (RE.rep notNL 1 none true), RE.lit "\n".data false,
    RE.lit "Amount:".data false, RE.rep isPySpace 0 none true,
    RE.rep (fun c => c == '$') 0 (some 1) true, RE.grp 2 (RE.rep digitOrComma 1 none true)]

/-- `r'Club:\s*([^\n]+)\n.*?Description:\s*([^\n]+)'` (DOTALL). -/
def reClubIter : RE :=
  seqList [RE.lit "Club:".data false, RE.rep isPySpace 0 none true,
    RE.grp 1 (RE.rep notNL 1 none true), RE.lit "\n".data false,
    RE.rep anyChar 0 none false, RE.lit "Description:".data false,
    RE.rep isPySpace 0 none true, RE.grp 2 (RE.rep notNL 1 none true)]

/-- `r'Deadline:\s*([^\n]+)\nDate:\s*([^\n]+)'`. -/
def reDeadlineIter : RE :=
  seqList [RE.lit "Deadline:".data false, RE.rep isPySpace 0 none true,
    RE.grp 1 (RE.rep notNL 1 none true), RE.lit "\n".data false,
    RE.lit "Date:".data false, RE.rep isPySpace 0 none true,
    RE.grp 2 (RE.rep notNL 1 none true)]

/-- `r'Resource:\s*([^\n]+)\n.*?Description:\s*([^\n]+)'` (DOTALL). -/
def reResourceIter : RE :=
  seqList [RE.lit "Resource:".data false, RE.rep isPySpace 0 none true,
    RE.grp 1 (RE.rep notNL 1 none true), RE.lit "\n".data false,
    RE.rep anyChar 0 none false, RE.lit "Description:".data false,
    RE.rep isPySpace 0 none true, RE.grp 2 (RE.rep notNL 1 none true)]

/-- `r'([^:]+\([A-Z]{2,3}\)):\s*(.+?)(?:\n\nResult|\Z)'` (DOTALL). -/
def reProgram : RE :=
  seqList [RE.grp 1 (seqList [RE.rep notColon 1 none true, RE.lit "(".data false,
      RE.rep isUpperAZ 2 (some 3) true, RE.lit ")".data false]),
    RE.lit ":".data false, RE.rep isPySpace 0 none true,
    RE.grp 2 (RE.rep anyChar 1 none false),
    RE.alt (RE.lit "\n\nResult".data false) RE.eos]

/-- `r'>>>\s*MOST RELEVANT ANSWER\s*>>>'`. -/
def reMarkerSub : RE :=
  seqList [RE.lit ">>>".data false, RE.rep isPySpace 0 none true,
    RE.lit "MOST RELEVANT ANSWER".data false, RE.rep isPySpace 0 none true,
    RE.lit ">>>".data false]

/-- `r'Result \d+ \[[^\]]+\] \(relevance: [\d.]+\):'`. -/
def reResultHeader : RE :=
  seqList [RE.lit "Result ".data false, RE.rep Char.isDigit 1 none true,
    RE.lit " [".data false, RE.rep notRBracket 1 none true,
    RE.lit "] (relevance: ".data false, RE.rep digitOrDot 1 none true,
    RE.lit "):".data false]

/-- `r'\n\s*\n'`. -/
def reBlankLines : RE :=
  seqList [RE.lit "\n".data false, RE.rep isPySpace 0 none true, RE.lit "\n".data false]

def fmtSummary (obs : String) : Option String :=
  if containsSub "Summary:" obs then
    match search1 reSummary obs with
    | some g =>
        let summary := pyStrip g
        some (match search1 reURL obs with
          | some url =>
              if containsSub "sjsu.edu" url then summary ++ "\n\nSource: " ++ url else summary
          | none => summary)
    | none => none
  else none

def fmtWebResults (obs : String) : Option String :=
  if containsSub "Result 1:" obs && containsSub "Content:" obs then
    -- the source also runs a Title regex here, but never uses its result
    match search1 reContent obs with
    | some g =>
        let content := pyReplace (pyStrip g) "..." ""
        some (match search1 reURL obs with
          | some url => content ++ "\n\nSource: " ++ url
          | none => content)
    | none => none
  else none

def fmtQA (obs : String) : Option String :=
  if containsSub "Q:" obs && containsSub "A:" obs then (search1 reQA obs).map pyStrip
  else none

def fmtCourse (obs : String) : Option String :=
  if containsSub "Prerequisites:" obs then
    (reSearchCaps reCourse obs.data).map (fun caps =>
      "The prerequisites for " ++ capStr caps 1 ++ " (" ++ pyStrip (capStr caps 2) ++
        ") are: " ++ pyStrip (capStr caps 3))
  else none

def fmtScholarships (obs : String) : Option String :=
  if containsSub "Scholarship:" obs then
    let items := (reFindIter reScholarIter obs.data).map (fun caps =>
      "• " ++ pyStrip (capStr caps 1) ++ " ($" ++ pyStrip (capStr caps 2) ++ ")")
    if items.isEmpty then none
    else some ("Available scholarships:\n" ++ String.intercalate "\n" (items.take 5))
  else none

def fmtClubs (obs : String) : Option String :=
  if containsSub "Club:" obs then
    let items := (reFindIter reClubIter obs.data).map (fun caps =>
      "• " ++ pyStrip (capStr caps 1) ++ ": " ++ pyStrip (capStr caps 2))
    if items.isEmpty then none
    else some ("Student clubs:\n" ++ String.intercalate "\n" (items.take 5))
  else none

def fmtDeadlines (obs : String) : Option String :=
  if containsSub "Deadline:" obs then
    let items := (reFindIter reDeadlineIter obs.data).map (fun caps =>
      "• " ++ pyStrip (capStr caps 1) ++ ": " ++ pyStrip (capStr caps 2))
    if items.isEmpty then none
    else some ("Important deadlines:\n" ++ String.intercalate "\n" (items.take 5))
  else none

def fmtResources (obs : String) : Option String :=
  if containsSub "Resource:" obs then
    let items := (reFindIter reResourceIter obs.data).map (fun caps =>
      "• " ++ pyStrip (capStr caps 1) ++ ": " ++ pyStrip (capStr caps 2))
    if items.isEmpty then none
    else some ("Campus resources:\n" ++ String.intercalate "\n" (items.take 5))
  else none

def fmtProgram (obs : String) : Option String :=
  if containsSub "Program:" obs || containsSub "(MS):" obs || containsSub "(BS):" obs then
    (reSearchCaps reProgram obs.data).map (fun caps =>
      capStr caps 1 ++ ": " ++ strTake (pyStrip (capStr caps 2)) 300)
  else none

/-- The final cleanup fallback of the formatter. -/
def fmtFallbackClean (obs : String) : String :=
  let cleaned := String.mk (reSubAll reMarkerSub [] obs.data)
  let cleaned := String.mk (reSubAll reResultHeader [] cleaned.data)
  let cleaned := String.mk (reSubAll reBlankLines "\n".data cleaned.data)
  let cleaned := pyStrip cleaned
  let cleaned := if cleaned.length > 500 then strTake cleaned 500 ++ "..." else cleaned
  if cleaned = "" then
    "I found relevant information but couldn\x27t format it properly. Please try rephrasing your question."
  else cleaned

/-- `_format_observation_as_answer`: the content-shape branches in source
order, falling through to the cleanup. -/
def formatObservationAsAnswer (observation : String) : String :=
  (([fmtSummary, fmtWebResults, fmtQA, fmtCourse, fmtScholarships, fmtClubs,
     fmtDeadlines, fmtResources, fmtProgram].findSome? (fun f => f observation)).getD
    (fmtFallbackClean observation))

/-! ## Prompt construction (`_build_system_prompt`, `_build_user_prompt`,
`_update_prompt`) -/

def buildSystemPrompt : String :=
  "You are a helpful SJSU Virtual Assistant that uses the ReAct (Reasoning and Acting) framework to answer student questions.\n\nYou have access to the following tools:\n- database_query: Query the SJSU knowledge database for official information about courses, prerequisites, programs, deadlines, FAQs, campus resources, etc. ALWAYS use this tool FIRST for any SJSU-specific questions.\n- web_search: Search the web for current information not in the database\n\nUse this format:\n\nThought: Consider what information you need to answer the question\nAction: [tool_name]\nAction Input: [input for the tool]\nObservation: [result from the tool]\n... (repeat Thought/Action/Observation as needed)\nThought: I now have enough information to answer\nFinal Answer: [your complete answer to the user]\n\nCRITICAL RULES - READ CAREFULLY:\n1. ALWAYS use database_query tool FIRST for questions about SJSU courses, prerequisites, programs, or policies\n2. If database_query returns \"No information found\" or \"This course may not be in our records\", you MUST use web_search tool next\n3. When using web_search, search for \"SJSU [course code] prerequisites\" to find current information\n4. When you see the Observation from database_query with actual course information, read it WORD BY WORD\n5. Your Final Answer MUST use the EXACT text from the Observation - DO NOT CHANGE ANY WORDS\n6. DO NOT add any information that is not in the Observation\n7. DO NOT substitute or add different course codes than what appears in the results\n8. The >>> MOST RELEVANT ANSWER >>> marker shows you the best result - use ONLY that information\n9. Copy the prerequisite requirements EXACTLY as they appear - including phrases like \"or instructor consent\"\n10. DO NOT hallucinate or invent course numbers that are not in the Observation\n11. If BOTH database_query AND web_search fail, then say: \"I couldn\x27t find information about this course. Please check https://catalog.sjsu.edu or contact the department.\"\n12. NEVER make up prerequisites - always use tools first"

def fewShotExample : String :=
  "Here\x27s an example of how to properly answer a question:\n\nQuestion: What are the prerequisites for CMPE 259?\n\nThought: I need to find information about CMPE 259 prerequisites. I should query the SJSU database first.\nAction: database_query\nAction Input: CMPE 259 prerequisites\nObservation: >>> MOST RELEVANT ANSWER >>> CMPE 259 - Natural Language Processing: Prerequisites: CMPE 252 or CMPE 255 or CMPE 257, or instructor consent.\nThought: I found the prerequisites in the database. I will provide the exact information.\nFinal Answer: The prerequisites for CMPE 259 (Natural Language Processing) are: CMPE 252 or CMPE 255 or CMPE 257, or instructor consent.\n\n---\nNow answer the following question using the same approach:\n\n"

def buildUserPrompt (conv : List Msg) (query : String) (context : Option String) : String :=
  let prompt := fewShotExample
  let prompt :=
    if !conv.isEmpty && conv.length ≥ 2 then
      prompt ++ "Recent conversation for context:\n" ++
        String.join ((conv.drop (conv.length - 2)).map
          (fun m => pyCapitalize m.role ++ ": " ++ strTake m.content 200 ++ "\n")) ++ "\n"
    else prompt
  let prompt := prompt ++ "Question: " ++ query ++ "\n\n"
  let prompt :=
    match context with
    | some c => if c = "" then prompt else prompt ++ "Additional Context: " ++ c ++ "\n\n"
    | none => prompt
  prompt ++ "Thought:"

def updatePrompt (current : String) (st : Step) : String :=
  let u := "\n\nThought: " ++ st.thought.getD ""
  let u := if optTruthy st.action then u ++ "\nAction: " ++ st.action.getD "" else u
  let u := if optTruthy st.action_input then u ++ "\nAction Input: " ++ st.action_input.getD "" else u
  let u := if optTruthy st.observation then u ++ "\nObservation: " ++ st.observation.getD "" else u
  current ++ u ++ "\n\nContinue reasoning:"

/-! ## The loop controller (`run`, lines 39-283) -/

/-- How one iteration of the while-loop ends: a model-call exception (break
with an error step), an accepted final answer (break), or fall-through to
the next iteration with the updated running prompt. -/
inductive IterOut : Type where
  | errored : String → IterOut
  | accepted : Option String → IterOut
  | continued : String → IterOut
deriving DecidableEq

/-- One pass of the loop body at iteration number `it` (lines 66-240):
model call, parse, first-iteration guard, acceptance test, tool execution
with auto-fallback, prompt update. -/
def runIteration (env : Env) (query : String) (conv : List Msg) (sys up : String)
    (it : Nat) : Step × IterOut :=
  match env.generate sys up conv with
  | Except.error e =>
      ({ iteration := it, thought := none, action := none, action_input := none,
         observation := none, error := some e }, IterOut.errored e)
  | Except.ok response =>
      let (a0, i0, o0) := parseResponse response
      let st0 : Step :=
        { iteration := it, thought := some response, action := a0, action_input := i0,
          observation := o0, error := none }
      let st1 :=
        if a0 = some "Final Answer" ∧ it = 1 then
          { st0 with action := some "database_query", action_input := some query,
                     observation := none }
        else st0
      if st1.action = some "Final Answer" ∧ 1 < it then (st1, IterOut.accepted o0)
      else
        let st2 := executeAction env query conv st1
        (st2, IterOut.continued (updatePrompt up st2))

/-- The while-loop: fuel counts the remaining allowed iterations, `it` is the
current value of the `iteration` counter.  Returns the recorded steps, the
final counter and the explicitly accepted final answer (if any). -/
def runLoopAux (env : Env) (query : String) (conv : List Msg) (sys : String) :
    Nat → Nat → String → List Step → List Step × Nat × Option String
  | 0, it, _, steps => (steps, it, none)
  | fuel + 1, it, up, steps =>
      match runIteration env query conv sys up (it + 1) with
      | (st, IterOut.errored _) => (steps ++ [st], it + 1, none)
      | (st, IterOut.accepted fa) => (steps ++ [st], it + 1, fa)
      | (st, IterOut.continued up2) => runLoopAux env query conv sys fuel (it + 1) up2 (steps ++ [st])

/-- `obs and '>>> MOST RELEVANT ANSWER >>>' in str(obs)` for a step. -/
def hasMarkerObs (st : Step) : Bool :=
  optTruthy st.observation &&
    containsSub ">>> MOST RELEVANT ANSWER >>>" (st.observation.getD "")

/-- `obs` truthiness (`step.get('observation', '')`). -/
def hasTruthyObs (st : Step) : Bool := optTruthy st.observation

/-- The exhaustion scan (lines 243-252): the first observation carrying the
most-relevant marker wins, else the first truthy observation. -/
def chooseBestObservation : List Step → Option String → Option String
  | [], best => best
  | st :: rest, best =>
      if hasMarkerObs st then st.observation
      else if hasTruthyObs st && !(optTruthy best) then
        chooseBestObservation rest st.observation
      else chooseBestObservation rest best

/-- Lines 243-258: synthesize a final answer when none was accepted (only
called with a non-empty step list). -/
def synthesizeFallback (steps : List Step) : String :=
  let best := chooseBestObservation steps none
  if optTruthy best then formatObservationAsAnswer (best.getD "")
  else
    match steps.getLast? with
    | some st => st.thought.getD "Unable to generate response"
    | none => "Unable to generate response"

/-- `AgentOrchestrator.run`: returns the result dictionary and the
conversation history after the two appends of lines 273-281. -/
def run (env : Env) (conv : List Msg) (maxIterations : Nat) (query : String)
    (context : Option String) : RunResult × List Msg :=
  match runLoopAux env query conv buildSystemPrompt maxIterations 0
      (buildUserPrompt conv query context) [] with
  | (steps, its, fa0) =>
      let fa1 := if optTruthy fa0 = false ∧ steps ≠ [] then some (synthesizeFallback steps) else fa0
      let response := pyOr fa1 "I apologize, but I couldn\x27t generate a proper response."
      ({ query := query, response := response, reasoning_steps := steps, iterations := its,
         model := env.modelName, max_iterations := maxIterations, completed := fa1.isSome },
       conv ++ [{ role := "user", content := query },
                { role := "assistant", content := pyOr fa1 "Unable to respond" }])

/-! ## `get_conversation_history` under a reference-cell heap model

`get_conversation_history` returns `self.conversation_history.copy()` — a
new list whose elements are the same message dict objects.  To state what
in-place mutation of a message does, the history is modelled as a list of
cell addresses `refs` into a store of message cells: `copy()` duplicates
the address list (value-equal in a pure setting), element mutation updates
the store, and reading a snapshot dereferences its addresses. -/

/-- `self.conversation_history.copy()` at the address level: a fresh list
holding the same cell addresses. -/
def getHistoryRefs (refs : List Nat) : List Nat := refs

/-- In-place mutation of the message object stored in cell `a`. -/
def setStoreMsg (store : List Msg) (a : Nat) (m : Msg) : List Msg := store.set a m

/-- Read a snapshot: dereference each address in the store. -/
def derefHistory (store : List Msg) (refs : List Nat) : List Msg :=
  refs.map (fun a => (store[a]?).getD { role := "", content := "" })

/-! ## Helper lemmas -/

theorem pyOr_ne_empty (o : Option String) (d : String) (hd : d ≠ "") : pyOr o d ≠ "" := by
  cases o with
  | none => exact hd
  | some s =>
      show (if s = "" then d else s) ≠ ""
      by_cases hs : s = ""
      · rw [if_pos hs]; exact hd
      · rw [if_neg hs]; exact hs

theorem listContainsSub_of_isPrefixOf (n l : List Char) (hp : n.isPrefixOf l = true) :
    listContainsSub n l = true := by
  cases l with
  | nil =>
      cases n with
      | nil => rfl
      | cons a t => simp [List.isPrefixOf] at hp
  | cons c t =>
      simp only [listContainsSub, hp, Bool.true_or]

theorem containsSub_of_prefix (n h : String) (hp : n.data <+: h.data) :
    containsSub n h = true := by
  apply listContainsSub_of_isPrefixOf
  rwa [List.isPrefixOf_iff_prefix]

theorem containsSub_sjsu_append (t : String) : containsSub "SJSU" ("SJSU " ++ t) = true := by
  apply containsSub_of_prefix
  rw [String.data_append]
  exact (show "SJSU".data <+: "SJSU ".data by decide).trans (List.prefix_append _ _)

theorem containsSub_sjsu_append2 (a b : String) :
    containsSub "SJSU" ("SJSU " ++ a ++ b) = true := by
  apply containsSub_of_prefix
  rw [String.data_append, String.data_append, List.append_assoc]
  exact (show "SJSU".data <+: "SJSU ".data by decide).trans (List.prefix_append _ _)

/-! ## Claim theorems -/

/-- C2: for every raw model text in which the action search yields an action
and the action-input search (after cleanup) yields a non-empty input, the
parser returns the `(action, action_input)` pair with a null final-answer
slot — any later `Final Answer:` marker is ignored. -/
theorem C2_action_input_precedence (s a i : String)
    (h1 : searchActionName s = some a) (h2 : a ≠ "")
    (h3 : actionInputOf s = some i) (h4 : i ≠ "") :
    parseResponse s = (some a, some i, none) := by
  unfold parseResponse
  rw [h1, h3]
  simp [optTruthy, h2, h4]

/-- C2 witness: the concrete instance named by the claim. -/
theorem C2_witness :
    parseResponse "Action: web_search\nAction Input: X\nFinal Answer: Y" =
      (some "web_search", some "X", none) :=
  C2_action_input_precedence _ "web_search" "X" (by decide) (by decide) (by decide) (by decide)

/-- C4: when fewer than half of the significant query terms occur in the
observation, the fallback evaluator judges the database result irrelevant,
the reformulated web query contains the institution name SJSU, and a
successful web dispatch rewrites the recorded step to `web_search` with
that query. -/
theorem C4_relevance_fallback (query obs : String) (conv : List Msg)
    (hne : significantWords query ≠ [])
    (hlt : 2 * ((significantWords query).filter
        (fun w => containsSub w (pyLower obs))).length < (significantWords query).length) :
    shouldFallbackDb query obs conv = true ∧
    containsSub "SJSU" (buildWebQuery query conv) = true ∧
    (∀ (env : Env) (st : Step), st.action = some "database_query" →
      env.dbQuery (st.action_input.getD "") = Except.ok obs →
      ∀ w, env.webSearch (buildWebQuery query conv) = Except.ok w →
        executeAction env query conv st =
          { st with action := some "web_search",
                    action_input := some (buildWebQuery query conv),
                    observation := some w }) := by
  have hq : (significantWords query).isEmpty = false := by
    cases hsw : significantWords query with
    | nil => exact absurd hsw hne
    | cons x t => rfl
  have hfb : shouldFallbackDb query obs conv = true := by
    unfold shouldFallbackDb
    by_cases hno : containsSub "No information found" obs = true
    · simp [hno]
    · simp [hno, hq, hlt]
  refine ⟨hfb, ?_, ?_⟩
  · unfold buildWebQuery
    split
    · exact containsSub_sjsu_append2 _ _
    · exact containsSub_sjsu_append _
  · intro env st hact hdb w hweb
    unfold executeAction
    rw [hact]
    simp [isKnownTool, toolExec, hdb, hfb, hweb]

/-- C9: inside the fallback dispatch, a web-search exception is absorbed —
the step keeps its action and input and its observation becomes the static
consult-the-official-source message — while a successful web search
replaces action, input and observation in place. -/
theorem C9_web_failure_degrades (env : Env) (query : String) (conv : List Msg) (st : Step)
    (obs : String) (hact : st.action = some "database_query")
    (hdb : env.dbQuery (st.action_input.getD "") = Except.ok obs)
    (hfb : shouldFallbackDb query obs conv = true) :
    (∀ e, env.webSearch (buildWebQuery query conv) = Except.error e →
        executeAction env query conv st = { st with observation := some staticFallbackMsg }) ∧
    (∀ w, env.webSearch (buildWebQuery query conv) = Except.ok w →
        executeAction env query conv st =
          { st with action := some "web_search",
                    action_input := some (buildWebQuery query conv),
                    observation := some w }) := by
  constructor <;> intro x hx <;> unfold executeAction <;> rw [hact] <;>
    simp [isKnownTool, toolExec, hdb, hfb, hx]

/-- C1: if the first completion parses to the action `Final Answer`, then
iteration 1 records the step produced by executing `database_query` on the
raw user query (the override), and no iteration `it` can ever accept a
final answer unless `1 < it`. -/
theorem C1_first_iteration_guard (env : Env) (query : String) (conv : List Msg)
    (sys up r : String) (hgen : env.generate sys up conv = Except.ok r)
    (hfa : (parseResponse r).1 = some "Final Answer") :
    (runIteration env query conv sys up 1).1 =
      executeAction env query conv
        { iteration := 1, thought := some r, action := some "database_query",
          action_input := some query, observation := none, error := none } ∧
    (∀ it st fa, runIteration env query conv sys up it = (st, IterOut.accepted fa) → 1 < it) := by
  constructor
  · rcases hp : parseResponse r with ⟨a0, i0, o0⟩
    have ha0 : a0 = some "Final Answer" := by rw [hp] at hfa; exact hfa
    subst ha0
    simp only [runIteration, hgen, hp]
    rw [if_pos (⟨trivial, trivial⟩ : True ∧ True)]
    rw [if_neg]
    rintro ⟨-, hlt⟩
    omega
  · intro it st fa h
    cases hg : env.generate sys up conv with
    | error e => simp only [runIteration, hg] at h; simp at h
    | ok resp =>
        rcases hp : parseResponse resp with ⟨a0, i0, o0⟩
        simp only [runIteration, hg, hp] at h
        split at h
        · split at h
          · next hcond => exact hcond.2
          · simp at h
        · split at h
          · next hcond => exact hcond.2
          · simp at h

/-- Loop bookkeeping: each pass appends exactly one step and bumps the
counter once, so the counter equals the number of recorded steps and never
exceeds the remaining fuel. -/
theorem runLoopAux_spec (env : Env) (query : String) (conv : List Msg) (sys : String) :
    ∀ fuel it up steps,
      (runLoopAux env query conv sys fuel it up steps).1.length + it =
        (runLoopAux env query conv sys fuel it up steps).2.1 + steps.length ∧
      (runLoopAux env query conv sys fuel it up steps).2.1 ≤ it + fuel := by
  intro fuel
  induction fuel with
  | zero =>
      intro it up steps
      simp only [runLoopAux]
      omega
  | succ n ih =>
      intro it up steps
      rcases h : runIteration env query conv sys up (it + 1) with ⟨st, out⟩
      cases out with
      | errored e =>
          simp only [runLoopAux, h]
          simp [List.length_append]
          omega
      | accepted fa =>
          simp only [runLoopAux, h]
          simp [List.length_append]
          omega
      | continued up2 =>
          have hih := ih (it + 1) up2 (steps ++ [st])
          simp only [runLoopAux, h]
          simp only [List.length_append, List.length_singleton] at hih
          omega

/-- C5 (amended): the returned iteration count equals the total number of
recorded reasoning-step entries — error steps included — and never exceeds
the configured maximum. -/
theorem C5_iteration_count_amended (env : Env) (conv : List Msg) (maxIterations : Nat)
    (query : String) (context : Option String) :
    (run env conv maxIterations query context).1.iterations =
      (run env conv maxIterations query context).1.reasoning_steps.length ∧
    (run env conv maxIterations query context).1.iterations ≤ maxIterations := by
  have h := runLoopAux_spec env query conv buildSystemPrompt maxIterations 0
    (buildUserPrompt conv query context) []
  rcases hL : runLoopAux env query conv buildSystemPrompt maxIterations 0
    (buildUserPrompt conv query context) [] with ⟨steps, its, fa0⟩
  rw [hL] at h
  simp only [run, hL]
  simp only [List.length_nil] at h
  constructor
  · omega
  · omega

/-- C7: for every environment (the model and both tools may raise or return
anything) the returned response string is non-empty. -/
theorem C7_response_nonempty (env : Env) (conv : List Msg) (maxIterations : Nat)
    (query : String) (context : Option String) :
    (run env conv maxIterations query context).1.response ≠ "" := by
  rcases hL : runLoopAux env query conv buildSystemPrompt maxIterations 0
    (buildUserPrompt conv query context) [] with ⟨steps, its, fa0⟩
  simp only [run, hL]
  exact pyOr_ne_empty _ _ (by decide)

/-- `pyOr` with the same scrutinee either returns the same value for two
defaults, or each default. -/
theorem pyOr_agree (o : Option String) (d1 d2 : String) :
    pyOr o d1 = pyOr o d2 ∨ (pyOr o d1 = d1 ∧ pyOr o d2 = d2) := by
  cases o with
  | none => right; exact ⟨rfl, rfl⟩
  | some s =>
      by_cases hs : s = ""
      · right; constructor <;> simp [pyOr, hs]
      · left; simp [pyOr, hs]

/-- C10: every run appends exactly two history entries — the user query and
an assistant entry holding the final answer (the returned response) or the
literal `Unable to respond` when no truthy answer exists — leaving every
pre-existing entry untouched. -/
theorem C10_history_two_appends (env : Env) (conv : List Msg) (maxIterations : Nat)
    (query : String) (context : Option String) :
    ∃ a, (run env conv maxIterations query context).2 =
        conv ++ [{ role := "user", content := query }, { role := "assistant", content := a }] ∧
      (a = (run env conv maxIterations query context).1.response ∨ a = "Unable to respond") := by
  rcases hL : runLoopAux env query conv buildSystemPrompt maxIterations 0
    (buildUserPrompt conv query context) [] with ⟨steps, its, fa0⟩
  simp only [run, hL]
  refine ⟨_, rfl, ?_⟩
  rcases pyOr_agree
      (if optTruthy fa0 = false ∧ steps ≠ [] then some (synthesizeFallback steps) else fa0)
      "Unable to respond" "I apologize, but I couldn\x27t generate a proper response." with h | h
  · left; exact h
  · right; exact h.1

/-- Any iteration whose completion parses to something other than the
`Final Answer` action falls through to the next iteration. -/
theorem runIteration_continued (env : Env) (query : String) (conv : List Msg)
    (sys up : String) (it : Nat) (r : String)
    (hgen : env.generate sys up conv = Except.ok r)
    (hna : (parseResponse r).1 ≠ some "Final Answer") :
    ∃ st up2, runIteration env query conv sys up it = (st, IterOut.continued up2) := by
  rcases hp : parseResponse r with ⟨a0, i0, o0⟩
  have ha0 : a0 ≠ some "Final Answer" := by rw [hp] at hna; exact hna
  refine ⟨executeAction env query conv
      { iteration := it, thought := some r, action := a0, action_input := i0,
        observation := o0, error := none },
    updatePrompt up (executeAction env query conv
      { iteration := it, thought := some r, action := a0, action_input := i0,
        observation := o0, error := none }), ?_⟩
  simp only [runIteration, hgen, hp]
  rw [if_neg (show ¬(a0 = some "Final Answer" ∧ it = 1) from fun hc => ha0 hc.1)]
  rw [if_neg]
  rintro ⟨hc, -⟩
  exact ha0 hc

/-- C3 (amended): with maximum 2 and a model that always emits non-final
actions, the run exhausts with iteration count 2 and a non-empty
synthesized response, but the metadata reports `completed = true` — the
synthesized fallback answer is backfilled into `final_answer` before the
completion flag is computed. -/
theorem C3_exhaustion_amended (env : Env) (conv : List Msg) (query : String)
    (context : Option String)
    (H : ∀ sys up, ∃ r, env.generate sys up conv = Except.ok r ∧
          ∃ a, (parseResponse r).1 = some a ∧ a ≠ "Final Answer") :
    (run env conv 2 query context).1.completed = true ∧
    (run env conv 2 query context).1.iterations = 2 ∧
    (run env conv 2 query context).1.response ≠ "" := by
  have hstep : ∀ up it, ∃ st up2,
      runIteration env query conv buildSystemPrompt up it = (st, IterOut.continued up2) := by
    intro up it
    obtain ⟨r, hg, a, hpa, hane⟩ := H buildSystemPrompt up
    apply runIteration_continued env query conv buildSystemPrompt up it r hg
    rw [hpa]
    intro hcon
    exact hane (by injection hcon)
  obtain ⟨st1, up1, h1⟩ := hstep (buildUserPrompt conv query context) 1
  obtain ⟨st2, up2, h2⟩ := hstep up1 2
  have hL : runLoopAux env query conv buildSystemPrompt 2 0
      (buildUserPrompt conv query context) [] = ([st1, st2], 2, none) := by
    show runLoopAux env query conv buildSystemPrompt (0 + 1 + 1) 0
      (buildUserPrompt conv query context) [] = ([st1, st2], 2, none)
    have h1b : runIteration env query conv buildSystemPrompt
        (buildUserPrompt conv query context) (0 + 1) = (st1, IterOut.continued up1) := h1
    have h2b : runIteration env query conv buildSystemPrompt up1 (0 + 1 + 1) =
        (st2, IterOut.continued up2) := h2
    simp only [runLoopAux, h1b, h2b]
    simp
  simp only [run, hL]
  refine ⟨?_, ?_, ?_⟩
  · simp [optTruthy]
  · trivial
  · exact pyOr_ne_empty _ _ (by decide)

/-! ## Exhaustion-scan lemmas (for C8) -/

theorem hasMarkerObs_truthy (st : Step) (h : hasMarkerObs st = true) :
    hasTruthyObs st = true := by
  unfold hasMarkerObs at h
  rw [Bool.and_eq_true] at h
  exact h.1

theorem chooseBest_marker (steps : List Step) : ∀ (best : Option String) (st : Step),
    steps.find? hasMarkerObs = some st → chooseBestObservation steps best = st.observation := by
  induction steps with
  | nil => intro best st h; simp at h
  | cons a l ih =>
      intro best st h
      cases ha : hasMarkerObs a with
      | true =>
          rw [List.find?_cons_of_pos _ ha] at h
          injection h with h
          subst h
          simp [chooseBestObservation, ha]
      | false =>
          rw [List.find?_cons_of_neg _ (by simp [ha])] at h
          simp only [chooseBestObservation, ha, Bool.false_eq_true, if_false]
          split
          · exact ih _ _ h
          · exact ih _ _ h

theorem chooseBest_keep (steps : List Step) : ∀ best, steps.find? hasMarkerObs = none →
    optTruthy best = true → chooseBestObservation steps best = best := by
  induction steps with
  | nil => intro best _ _; rfl
  | cons a l ih =>
      intro best hm hb
      have hma : hasMarkerObs a = false := by
        have := List.find?_eq_none.mp hm a (List.mem_cons_self _ _)
        simpa using this
      have hml : l.find? hasMarkerObs = none := by
        rw [List.find?_eq_none] at hm ⊢
        intro x hx
        exact hm x (List.mem_cons_of_mem _ hx)
      simp only [chooseBestObservation, hma, hb, Bool.false_eq_true, if_false,
        Bool.not_true, Bool.and_false]
      exact ih best hml hb

theorem chooseBest_first (steps : List Step) : ∀ st, steps.find? hasMarkerObs = none →
    steps.find? hasTruthyObs = some st → chooseBestObservation steps none = st.observation := by
  induction steps with
  | nil => intro st _ h; simp at h
  | cons a l ih =>
      intro st hm ht
      have hma : hasMarkerObs a = false := by
        have := List.find?_eq_none.mp hm a (List.mem_cons_self _ _)
        simpa using this
      have hml : l.find? hasMarkerObs = none := by
        rw [List.find?_eq_none] at hm ⊢
        intro x hx
        exact hm x (List.mem_cons_of_mem _ hx)
      cases hta : hasTruthyObs a with
      | true =>
          rw [List.find?_cons_of_pos _ hta] at ht
          injection ht with ht
          subst ht
          simp only [chooseBestObservation, hma, hta, Bool.false_eq_true, if_false,
            optTruthy, Bool.not_false, Bool.and_true, if_true]
          exact chooseBest_keep l _ hml hta
      | false =>
          rw [List.find?_cons_of_neg _ (by simp [hta])] at ht
          simp only [chooseBestObservation, hma, hta, Bool.false_eq_true, if_false,
            Bool.false_and]
          exact ih st hml ht

theorem chooseBest_noobs (steps : List Step) : ∀ best, steps.find? hasTruthyObs = none →
    chooseBestObservation steps best = best := by
  induction steps with
  | nil => intro best _; rfl
  | cons a l ih =>
      intro best ht
      have hta : hasTruthyObs a = false := by
        have := List.find?_eq_none.mp ht a (List.mem_cons_self _ _)
        simpa using this
      have htl : l.find? hasTruthyObs = none := by
        rw [List.find?_eq_none] at ht ⊢
        intro x hx
        exact ht x (List.mem_cons_of_mem _ hx)
      have hma : hasMarkerObs a = false := by
        cases hq : hasMarkerObs a with
        | false => rfl
        | true => rw [hasMarkerObs_truthy a hq] at hta; cases hta
      simp only [chooseBestObservation, hma, hta, Bool.false_eq_true, if_false,
        Bool.false_and]
      exact ih best htl

/-- C8: on exhaustion, the observation chosen for synthesis is the first one
carrying the most-relevant marker when any does, else the first truthy
observation; and when no step holds a truthy observation the synthesized
answer is the last recorded step's thought text. -/
theorem C8_best_observation (steps : List Step) :
    (∀ st, steps.find? hasMarkerObs = some st →
        chooseBestObservation steps none = st.observation) ∧
    (steps.find? hasMarkerObs = none → ∀ st, steps.find? hasTruthyObs = some st →
        chooseBestObservation steps none = st.observation) ∧
    (steps.find? hasTruthyObs = none → ∀ st t, steps.getLast? = some st →
        st.thought = some t → synthesizeFallback steps = t) := by
  refine ⟨fun st h => chooseBest_marker steps none st h,
    fun hm st ht => chooseBest_first steps st hm ht, ?_⟩
  intro ht st t hlast hth
  unfold synthesizeFallback
  rw [chooseBest_noobs steps none ht]
  rw [if_neg (by decide)]
  rw [hlast]
  simp [hth]

/-! ## Shallow-copy aliasing theorems (for C6) -/

/-- C6 (amended): the two snapshots are the same address list (a value-equal
copy), and because `copy()` is shallow, updating the message cell reached
through one snapshot is visible through the other snapshot and through the
internal history: the mutated entry reads back the new message, and the
other snapshot's dereferenced content changes. -/
theorem C6_shallow_copy_amended (store : List Msg) (refs : List Nat) (i a : Nat) (m : Msg)
    (hidx : refs[i]? = some a) (hlen : a < store.length)
    (hne : (store[a]?).getD { role := "", content := "" } ≠ m) :
    (derefHistory (setStoreMsg store a m) (getHistoryRefs refs))[i]? = some m ∧
    derefHistory (setStoreMsg store a m) (getHistoryRefs refs) ≠
      derefHistory store (getHistoryRefs refs) := by
  have h1 : (derefHistory (setStoreMsg store a m) (getHistoryRefs refs))[i]? = some m := by
    unfold derefHistory getHistoryRefs setStoreMsg
    rw [List.getElem?_map, hidx]
    simp [List.getElem?_set_eq_of_lt m hlen]
  refine ⟨h1, ?_⟩
  intro heq
  have h2 : (derefHistory store (getHistoryRefs refs))[i]? =
      some ((store[a]?).getD { role := "", content := "" }) := by
    unfold derefHistory getHistoryRefs
    rw [List.getElem?_map, hidx]
    rfl
  rw [heq, h2] at h1
  injection h1 with hq
  exact hne hq

/-! ## Concrete environments for witnesses and counterexamples -/

/-- A model that immediately answers without touching any tool. -/
def envAlwaysFA : Env :=
  { generate := fun _ _ _ => Except.ok "Final Answer: Paris",
    webSearch := fun q => Except.ok ("web: " ++ q),
    dbQuery := fun q => Except.ok ("db: " ++ q), modelName := "test" }

/-- A model that always emits a (relevant) non-final database action. -/
def envNonFinal : Env :=
  { generate := fun _ _ _ => Except.ok "Action: database_query\nAction Input: campus parking info",
    webSearch := fun _ => Except.ok "web result",
    dbQuery := fun _ => Except.ok "SJSU campus parking info details", modelName := "test" }

/-- A model whose generate call raises. -/
def envModelError : Env :=
  { generate := fun _ _ _ => Except.error "connection reset",
    webSearch := fun _ => Except.ok "w",
    dbQuery := fun _ => Except.ok "d", modelName := "test" }

/-- Irrelevant database results and a web-search capability that raises. -/
def envWebDown : Env :=
  { generate := fun _ _ _ => Except.ok "Action: database_query\nAction Input: library stuff",
    webSearch := fun _ => Except.error "network down",
    dbQuery := fun _ => Except.ok "totally unrelated text", modelName := "test" }

def stepPlain : Step :=
  { iteration := 1, thought := some "thinking", action := some "database_query",
    action_input := some "x", observation := some "plain result", error := none }

def stepMarker : Step :=
  { iteration := 2, thought := some "thinking2", action := some "database_query",
    action_input := some "y", observation := some ">>> MOST RELEVANT ANSWER >>> best",
    error := none }

def stepNoObs : Step :=
  { iteration := 1, thought := some "final thought", action := none,
    action_input := none, observation := none, error := none }

/-! ## Witnesses and counterexamples -/

/-- C1 witness: a model answering `Final Answer: Paris` on iteration 1 has
its step overridden to `database_query` on the raw query. -/
theorem C1_witness :
    (runIteration envAlwaysFA "campus parking" [] "sys" "up" 1).1 =
      executeAction envAlwaysFA "campus parking" []
        { iteration := 1, thought := some "Final Answer: Paris",
          action := some "database_query", action_input := some "campus parking",
          observation := none, error := none } :=
  (C1_first_iteration_guard envAlwaysFA "campus parking" [] "sys" "up" "Final Answer: Paris"
    rfl (by decide)).1

/-- C3 counterexample: maximum 2 and a model that always emits non-final
actions — `run` reports `completed = true`, not `false`, while the
iteration count does reach the maximum. -/
theorem C3_counterexample :
    ¬((run envNonFinal [] 2 "campus parking" none).1.completed = false) ∧
    (run envNonFinal [] 2 "campus parking" none).1.iterations = 2 := by
  constructor
  · decide
  · decide

/-- C3 witness (amended): the same environment through the amended theorem. -/
theorem C3_witness :
    (run envNonFinal [] 2 "campus parking" none).1.completed = true ∧
    (run envNonFinal [] 2 "campus parking" none).1.iterations = 2 ∧
    (run envNonFinal [] 2 "campus parking" none).1.response ≠ "" :=
  C3_exhaustion_amended envNonFinal [] "campus parking" none
    (fun _ _ => ⟨"Action: database_query\nAction Input: campus parking info", rfl,
      "database_query", by decide, by decide⟩)

/-- C4 witness: a query none of whose significant terms occur in the
observation triggers the fallback, and the reformulated query contains
SJSU. -/
theorem C4_witness :
    shouldFallbackDb "library hours today" "totally unrelated text" [] = true ∧
    containsSub "SJSU" (buildWebQuery "library hours today" []) = true :=
  ⟨(C4_relevance_fallback "library hours today" "totally unrelated text" []
      (by decide) (by decide)).1,
   (C4_relevance_fallback "library hours today" "totally unrelated text" []
      (by decide) (by decide)).2.1⟩

/-- C5 counterexample: a model-call exception on iteration 1 records one
error step; the returned iteration count is 1 while the number of
non-error steps is 0. -/
theorem C5_counterexample :
    (run envModelError [] 10 "q" none).1.iterations ≠
      ((run envModelError [] 10 "q" none).1.reasoning_steps.filter
        (fun st => st.error.isNone)).length := by
  decide

/-- C6 counterexample: with one stored message referenced by the history,
mutating the message cell reached through one `get_history` snapshot
changes what the other (equal) snapshot dereferences to — the copy is
shallow. -/
theorem C6_counterexample :
    derefHistory (setStoreMsg [{ role := "user", content := "hi" }] 0
        { role := "user", content := "edited" }) (getHistoryRefs [0]) ≠
      derefHistory [{ role := "user", content := "hi" }] (getHistoryRefs [0]) := by
  decide

/-- C6 witness (amended): the same mutation through the amended theorem. -/
theorem C6_witness :
    (derefHistory (setStoreMsg [{ role := "user", content := "hi" }] 0
        { role := "user", content := "edited" }) (getHistoryRefs [0]))[0]? =
      some { role := "user", content := "edited" } ∧
    derefHistory (setStoreMsg [{ role := "user", content := "hi" }] 0
        { role := "user", content := "edited" }) (getHistoryRefs [0]) ≠
      derefHistory [{ role := "user", content := "hi" }] (getHistoryRefs [0]) :=
  C6_shallow_copy_amended [{ role := "user", content := "hi" }] [0] 0 0
    { role := "user", content := "edited" } (by decide) (by decide) (by decide)

/-- C8 witness: marker observations beat earlier plain ones, plain ones are
taken first-to-last, and without observations the last thought is used. -/
theorem C8_witness :
    chooseBestObservation [stepPlain, stepMarker] none =
      some ">>> MOST RELEVANT ANSWER >>> best" ∧
    chooseBestObservation [stepNoObs, stepPlain] none = some "plain result" ∧
    synthesizeFallback [stepNoObs] = "final thought" :=
  ⟨(C8_best_observation [stepPlain, stepMarker]).1 stepMarker (by decide),
   (C8_best_observation [stepNoObs, stepPlain]).2.1 (by decide) stepPlain (by decide),
   (C8_best_observation [stepNoObs]).2.2 (by decide) stepNoObs "final thought"
     (by decide) (by decide)⟩

/-- C9 witness: irrelevant database results followed by a raising web
search leave the step on `database_query` with the static degraded
observation. -/
theorem C9_witness :
    executeAction envWebDown "library hours today" []
        { iteration := 1, thought := some "t", action := some "database_query",
          action_input := some "library stuff", observation := none, error := none } =
      { iteration := 1, thought := some "t", action := some "database_query",
        action_input := some "library stuff", observation := some staticFallbackMsg,
        error := none } :=
  (C9_web_failure_degrades envWebDown "library hours today" []
    { iteration := 1, thought := some "t", action := some "database_query",
      action_input := some "library stuff", observation := none, error := none }
    "totally unrelated text" rfl rfl (by decide)).1 "network down" rfl

end SJSUAgent
